import Mathlib

/-!
Verification of the sentiment-analyzer repository: a FastAPI backend
(`backend/main.py`) that forwards text to a local Ollama server and extracts a
one-word sentiment label, and a Streamlit frontend (`frontend/app.py`) that
renders the returned label.  The Python code is shallowly embedded below:
string operations are modelled on `List Char`, the external HTTP world is an
explicit environment of enumerated call outcomes, and the process-wide
`MODEL_NAME` global is threaded through as explicit state.
-/

/-- Python whitespace predicate used by `str.strip()` (ASCII subset): space,
tab, newline, vertical tab, form feed, carriage return. -/
def isPySpace (c : Char) : Bool :=
  decide (c.toNat = 32 ∨ c.toNat = 9 ∨ c.toNat = 10 ∨ c.toNat = 13 ∨
          c.toNat = 11 ∨ c.toNat = 12)

/-- `listPrefixAt needle hay`: `needle` is a (contiguous) prefix of `hay`. -/
def listPrefixAt : List Char → List Char → Bool
  | [], _ => true
  | _ :: _, [] => false
  | a :: as, b :: bs => a == b && listPrefixAt as bs

/-- Index of the first occurrence of `needle` as a contiguous substring of
`hay`, scanning left to right (the semantics of Python `in` / `re.search` for
a literal pattern). -/
def findSub (needle : List Char) : List Char → Option Nat
  | [] => if needle.isEmpty then some 0 else none
  | b :: t =>
    if listPrefixAt needle (b :: t) then some 0
    else (findSub needle t).map (· + 1)

/-- `needle` occurs contiguously somewhere inside `l`. -/
def OccursIn (needle l : List Char) : Prop := ∃ a b, l = a ++ needle ++ b

/-- Python `str.strip()` on a character list: drop leading whitespace, then
trailing whitespace. -/
def stripL (l : List Char) : List Char :=
  ((l.dropWhile isPySpace).reverse.dropWhile isPySpace).reverse

/-- Python `str.strip()`. -/
def pyStrip (s : String) : String := String.mk (stripL s.toList)

/-- Python `str.lower()` (ASCII). -/
def lowerL (l : List Char) : List Char := l.map Char.toLower

/-- Python `str.capitalize()` (ASCII): first character upper-cased, the rest
lower-cased. -/
def capitalizeL : List Char → List Char
  | [] => []
  | c :: cs => c.toUpper :: cs.map Char.toLower

/-- The three keyword patterns of the backend's regex, lower-cased. -/
def kwPositive : List Char := "positive".toList

def kwNegative : List Char := "negative".toList

def kwNeutral : List Char := "neutral".toList

/-- The scan performed by
`re.search(r'(Positive|Negative|Neutral)', raw_sentiment, re.IGNORECASE)`
viewed on the lower-cased text: positions are tried left to right and at each
position the three alternatives are tried in order; the result is the match's
start index and length. -/
def regexSearch3 : List Char → Option (Nat × Nat)
  | [] => none
  | c :: t =>
    if listPrefixAt kwPositive (c :: t) then some (0, 8)
    else if listPrefixAt kwNegative (c :: t) then some (0, 8)
    else if listPrefixAt kwNeutral (c :: t) then some (0, 7)
    else (regexSearch3 t).map (fun p => (p.1 + 1, p.2))

/-- Lines 79-87 of `backend/main.py`: strip the raw model reply, search for
the first case-insensitive occurrence of `Positive`/`Negative`/`Neutral`,
and capitalize the matched text; with no match, fall back to the first 50
characters of the stripped reply. -/
def extractSentiment (rawResponse : String) : String :=
  let raw := stripL rawResponse.toList
  match regexSearch3 (lowerL raw) with
  | some (i, len) => String.mk (capitalizeL ((raw.drop i).take len))
  | none => String.mk (raw.take 50)

/-- Case-insensitive containment of `pat` in `hay`: whether
`re.search(pat, hay, re.IGNORECASE)` succeeds for a literal pattern. -/
def containsCI (hay pat : String) : Bool :=
  (findSub (lowerL pat.toList) (lowerL hay.toList)).isSome

/-- Outcome of the liveness probe
`requests.get("http://localhost:11434/api/tags", timeout=3)` together with the
processing of its body inside the `try` of lines 39-55: `exn` is any exception
raised in that block (connection failure, timeout, malformed JSON, a model
object without a `name` key); `ok statusCode modelNames` is a response with
the given HTTP status whose JSON body lists the given model names. -/
inductive ProbeOutcome
  | exn
  | ok (statusCode : Nat) (modelNames : List String)

/-- Outcome of the generation call `requests.post(".../api/generate", ...)`
and the processing of its body (lines 62-109): `connError` is
`requests.exceptions.ConnectionError`; `reqExn msg` any other
`requests.exceptions.RequestException` (including the `HTTPError` raised by
`raise_for_status`) with `str(e) = msg`; `otherExn` any other exception;
`ok responseField` a successful reply whose JSON body carries the given
optional `response` field. -/
inductive GenOutcome
  | connError
  | reqExn (msg : String)
  | otherExn
  | ok (responseField : Option String)

/-- The external world one call to `/analyze/` can observe, plus whether
spawning the `ollama pull` subprocess itself succeeds. -/
structure Env where
  probe : ProbeOutcome
  gen : GenOutcome
  popenOk : Bool

/-- `MODEL_NAME = "phi"` (line 12 of backend/main.py). -/
def MODEL_NAME_init : String := "phi"

/-- The fixed priority list tried at line 48 of backend/main.py. -/
def candidateModels : List String := ["phi", "tinyllama", "gemma:2b", "llama2"]

/-- The `for model_option in [...]` loop with `break` of lines 48-52: the
first candidate contained in `available` wins; with no hit, `current` is
kept. -/
def pickModel : List String → List String → String → String
  | [], _, current => current
  | c :: rest, available, current =>
    if available.contains c then c else pickModel rest available current

/-- Result of one call to the `/analyze/` endpoint: the HTTP status and the
`sentiment` field of the JSON body, the value of the `MODEL_NAME` global
after the call, and a trace of outbound effects (whether the tags probe was
issued, which model the generation endpoint was called with, if at all, and
whether an `ollama pull` subprocess was spawned). -/
structure AnalyzeResult where
  status : Nat
  sentiment : String
  newModel : String
  probeCalled : Bool
  genCalledWith : Option String
  pullStarted : Bool
deriving DecidableEq, Repr

/-- Shallow embedding of `analyze_sentiment` (backend/main.py lines 31-109).
The process-wide `MODEL_NAME` is passed in as `modelName` and returned in
`newModel`; the external world is `env`.  Every Python `return {"sentiment":
...}` of the handler becomes a record with `status := 200`, FastAPI's status
for a plain dict return. -/
def analyze_sentiment (env : Env) (modelName text : String) : AnalyzeResult :=
  if pyStrip text = "" then
    { status := 200, sentiment := "Please provide some text to analyze",
      newModel := modelName, probeCalled := false, genCalledWith := none,
      pullStarted := false }
  else
    match env.probe with
    | .exn =>
      { status := 200,
        sentiment := "Error: Ollama is not running. Start with 'ollama serve'",
        newModel := modelName, probeCalled := true, genCalledWith := none,
        pullStarted := false }
    | .ok statusCode modelNames =>
      let m1 := if statusCode = 200 then pickModel candidateModels modelNames modelName
                else modelName
      match env.gen with
      | .connError =>
        { status := 200,
          sentiment := "Error: Cannot connect to Ollama. Run 'ollama serve' in a terminal",
          newModel := m1, probeCalled := true, genCalledWith := some m1,
          pullStarted := false }
      | .reqExn msg =>
        if (findSub "model not found".toList (lowerL msg.toList)).isSome then
          if env.popenOk then
            { status := 200,
              sentiment := "Model " ++ m1 ++ " not found. Attempting to download it now. Please try again in a minute.",
              newModel := m1, probeCalled := true, genCalledWith := some m1,
              pullStarted := true }
          else
            { status := 200,
              sentiment := "Error: Model not found. Run 'ollama pull " ++ m1 ++ "' in a terminal",
              newModel := m1, probeCalled := true, genCalledWith := some m1,
              pullStarted := false }
        else
          { status := 200, sentiment := "Error connecting to Ollama API",
            newModel := m1, probeCalled := true, genCalledWith := some m1,
            pullStarted := false }
      | .otherExn =>
        { status := 200, sentiment := "Unexpected error occurred",
          newModel := m1, probeCalled := true, genCalledWith := some m1,
          pullStarted := false }
      | .ok responseField =>
        match responseField with
        | none =>
          { status := 200, sentiment := "Error: Unable to analyze sentiment",
            newModel := m1, probeCalled := true, genCalledWith := some m1,
            pullStarted := false }
        | some raw =>
          { status := 200, sentiment := extractSentiment raw,
            newModel := m1, probeCalled := true, genCalledWith := some m1,
            pullStarted := false }

/-- Streamlit display style selected for a rendered message. -/
inductive WidgetStyle
  | success
  | error
  | info
  | warning
deriving DecidableEq, Repr

/-- frontend/app.py lines 58-67: render a sentiment string with the fixed
style mapping of the if/elif chain. -/
def renderSentiment (sentiment : String) : WidgetStyle × String :=
  if sentiment = "Positive" then (.success, "Sentiment: " ++ sentiment ++ " 😀")
  else if sentiment = "Negative" then (.error, "Sentiment: " ++ sentiment ++ " 😞")
  else if sentiment = "Neutral" then (.info, "Sentiment: " ++ sentiment ++ " 😐")
  else if (findSub "Error".toList sentiment.toList).isSome then (.error, sentiment)
  else (.warning, "Sentiment: " ++ sentiment)

/-- frontend/app.py lines 54-69: handle the `/analyze/` HTTP response; the
`sentiment` key of the JSON body is read with default `"Error"`. -/
def renderResponse (statusCode : Nat) (body : List (String × String)) :
    WidgetStyle × String :=
  if statusCode = 200 then renderSentiment ((body.lookup "sentiment").getD "Error")
  else (.error, "Error: Received status code " ++ toString statusCode)

/-- The value of the `MODEL_NAME` global after a sequence of `/analyze/`
calls, starting from the built-in default. -/
def runModelState (calls : List (Env × String)) : String :=
  calls.foldl (fun m c => (analyze_sentiment c.1 m c.2).newModel) MODEL_NAME_init

theorem char_toNat_ofNat (n : Nat) (h : n.isValidChar) : (Char.ofNat n).toNat = n := by
  simp only [Char.ofNat, h, dite_true, Char.ofNatAux, Char.toNat, UInt32.toNat]
  rfl

theorem toLower_eq (c : Char) :
    c.toLower = if c.toNat ≥ 65 ∧ c.toNat ≤ 90 then Char.ofNat (c.toNat + 32) else c := rfl

theorem toUpper_eq (c : Char) :
    c.toUpper = if c.toNat ≥ 97 ∧ c.toNat ≤ 122 then Char.ofNat (c.toNat - 32) else c := rfl

/-- Lowering a character then upper-casing it agrees with directly
upper-casing it. -/
theorem toUpper_toLower (c : Char) : c.toLower.toUpper = c.toUpper := by
  by_cases h : c.toNat ≥ 65 ∧ c.toNat ≤ 90
  · have hv : (c.toNat + 32).isValidChar := Or.inl (by omega)
    have ht : (Char.ofNat (c.toNat + 32)).toNat = c.toNat + 32 := char_toNat_ofNat _ hv
    rw [toLower_eq, if_pos h, toUpper_eq c, if_neg (by omega), toUpper_eq, ht,
      if_pos (by omega)]
    have : c.toNat + 32 - 32 = c.toNat := by omega
    rw [this, Char.ofNat_toNat]
  · rw [toLower_eq, if_neg h]

/-- `toLower` is idempotent. -/
theorem toLower_toLower (c : Char) : c.toLower.toLower = c.toLower := by
  by_cases h : c.toNat ≥ 65 ∧ c.toNat ≤ 90
  · have hv : (c.toNat + 32).isValidChar := Or.inl (by omega)
    have ht : (Char.ofNat (c.toNat + 32)).toNat = c.toNat + 32 := char_toNat_ofNat _ hv
    have h1 : c.toLower = Char.ofNat (c.toNat + 32) := by rw [toLower_eq, if_pos h]
    rw [h1, toLower_eq, ht, if_neg (by omega)]
  · have h1 : c.toLower = c := by rw [toLower_eq, if_neg h]
    rw [h1, h1]

/-- Lower-casing does not change whether a character is Python whitespace. -/
theorem isPySpace_toLower (c : Char) : isPySpace c.toLower = isPySpace c := by
  by_cases h : c.toNat ≥ 65 ∧ c.toNat ≤ 90
  · have hv : (c.toNat + 32).isValidChar := Or.inl (by omega)
    have ht : (Char.ofNat (c.toNat + 32)).toNat = c.toNat + 32 := char_toNat_ofNat _ hv
    rw [toLower_eq, if_pos h]
    simp only [isPySpace, ht]
    rw [decide_eq_decide]
    omega
  · rw [toLower_eq, if_neg h]

theorem listPrefixAt_iff : ∀ (n l : List Char), listPrefixAt n l = true ↔ ∃ r, l = n ++ r
  | [], l => by simp [listPrefixAt]
  | _ :: _, [] => by simp [listPrefixAt]
  | a :: as, b :: bs => by
    simp only [listPrefixAt, Bool.and_eq_true, beq_iff_eq, listPrefixAt_iff as bs,
      List.cons_append, List.cons.injEq]
    constructor
    · rintro ⟨rfl, r, rfl⟩
      exact ⟨r, rfl, rfl⟩
    · rintro ⟨r, rfl, rfl⟩
      exact ⟨rfl, r, rfl⟩


theorem findSub_nil (n : List Char) :
    findSub n [] = if n.isEmpty then some 0 else none := rfl

theorem findSub_cons (n : List Char) (b : Char) (t : List Char) :
    findSub n (b :: t) =
      if listPrefixAt n (b :: t) then some 0 else (findSub n t).map (· + 1) := rfl

theorem findSub_cons_none {n : List Char} {b : Char} {t : List Char}
    (h : findSub n (b :: t) = none) :
    listPrefixAt n (b :: t) = false ∧ findSub n t = none := by
  by_cases hp : listPrefixAt n (b :: t)
  · rw [findSub_cons, if_pos hp] at h
    exact absurd h (by simp)
  · rw [findSub_cons, if_neg hp] at h
    rw [Option.map_eq_none'] at h
    exact ⟨by simpa using hp, h⟩

theorem findSub_some : ∀ (n l : List Char) (i : Nat), findSub n l = some i →
    listPrefixAt n (l.drop i) = true
  | n, [], i => by
    intro h
    rw [findSub_nil] at h
    by_cases hn : n.isEmpty
    · rw [if_pos hn, Option.some.injEq] at h
      subst h
      cases n with
      | nil => simp [listPrefixAt]
      | cons c cs => simp [List.isEmpty] at hn
    · rw [if_neg hn] at h
      exact absurd h (by simp)
  | n, b :: t, i => by
    intro h
    by_cases hp : listPrefixAt n (b :: t)
    · rw [findSub_cons, if_pos hp, Option.some.injEq] at h
      subst h
      simpa using hp
    · rw [findSub_cons, if_neg hp, Option.map_eq_some'] at h
      obtain ⟨j, hj, rfl⟩ := h
      simpa using findSub_some n t j hj

theorem findSub_isSome_iff : ∀ (n l : List Char),
    (findSub n l).isSome = true ↔ OccursIn n l
  | n, [] => by
    rw [findSub_nil]
    constructor
    · intro h
      by_cases hn : n.isEmpty
      · have hn' : n = [] := by
          cases n with
          | nil => rfl
          | cons c cs => simp [List.isEmpty] at hn
        exact ⟨[], [], by simp [hn']⟩
      · rw [if_neg hn] at h
        exact absurd h (by simp)
    · rintro ⟨a, b, hab⟩
      rcases List.append_eq_nil.mp hab.symm with ⟨ha, hb⟩
      rcases List.append_eq_nil.mp ha with ⟨ha', hn⟩
      subst hn
      simp [List.isEmpty]
  | n, b :: t => by
    rw [findSub_cons]
    by_cases hp : listPrefixAt n (b :: t)
    · rw [if_pos hp]
      simp only [Option.isSome_some, true_iff]
      obtain ⟨r, hr⟩ := (listPrefixAt_iff n (b :: t)).mp hp
      exact ⟨[], r, by simpa using hr⟩
    · rw [if_neg hp]
      simp only [Option.isSome_map', findSub_isSome_iff n t]
      constructor
      · rintro ⟨a, c, rfl⟩
        exact ⟨b :: a, c, rfl⟩
      · rintro ⟨a, c, hac⟩
        cases a with
        | nil =>
          exact absurd ((listPrefixAt_iff n (b :: t)).mpr ⟨c, by simpa using hac⟩) hp
        | cons x xs =>
          simp only [List.cons_append, List.cons.injEq] at hac
          exact ⟨xs, c, hac.2⟩

theorem lowerL_stripL (l : List Char) : lowerL (stripL l) = stripL (lowerL l) := by
  have hpf : (isPySpace ∘ Char.toLower) = isPySpace := by
    funext c
    exact isPySpace_toLower c
  simp only [lowerL, stripL, List.dropWhile_map, hpf, ← List.map_reverse]

theorem capitalizeL_lowerL {w v : List Char} (h : lowerL w = v) :
    capitalizeL w = capitalizeL v := by
  subst h
  cases w with
  | nil => rfl
  | cons c cs =>
    simp only [lowerL, List.map_cons, capitalizeL, toUpper_toLower, List.map_map,
      List.cons.injEq, true_and]
    congr 1
    funext x
    exact (toLower_toLower x).symm

theorem occursIn_dropWhile {n : List Char} (hn : n ≠ [])
    (hns : ∀ x ∈ n, isPySpace x = false) :
    ∀ l : List Char, OccursIn n l → OccursIn n (l.dropWhile isPySpace)
  | [], h => by simpa [List.dropWhile] using h
  | x :: t, h => by
    by_cases hx : isPySpace x
    · rw [List.dropWhile_cons_of_pos hx]
      obtain ⟨a, b, hab⟩ := h
      cases a with
      | nil =>
        cases n with
        | nil => exact absurd rfl hn
        | cons c cs =>
          simp only [List.nil_append, List.cons_append, List.cons.injEq] at hab
          have : isPySpace c = false := hns c (List.mem_cons_self c cs)
          rw [← hab.1] at this
          rw [this] at hx
          exact absurd hx (by simp)
      | cons y ys =>
        simp only [List.cons_append, List.cons.injEq] at hab
        exact occursIn_dropWhile hn hns t ⟨ys, b, hab.2⟩
    · rwa [List.dropWhile_cons_of_neg hx]

theorem occursIn_of_dropWhile {n : List Char} {p : Char → Bool} :
    ∀ l : List Char, OccursIn n (l.dropWhile p) → OccursIn n l
  | [], h => by simpa [List.dropWhile] using h
  | x :: t, h => by
    by_cases hx : p x
    · rw [List.dropWhile_cons_of_pos hx] at h
      obtain ⟨a, b, hab⟩ := occursIn_of_dropWhile t h
      exact ⟨x :: a, b, by simp [hab]⟩
    · rwa [List.dropWhile_cons_of_neg hx] at h

theorem occursIn_reverse {n l : List Char} :
    OccursIn n l ↔ OccursIn n.reverse l.reverse := by
  constructor
  · rintro ⟨a, b, rfl⟩
    exact ⟨b.reverse, a.reverse, by simp⟩
  · rintro ⟨a, b, hab⟩
    refine ⟨b.reverse, a.reverse, ?_⟩
    have := congrArg List.reverse hab
    simpa using this

/-- A non-empty needle made of non-whitespace characters survives
`str.strip()`: if it occurs in `l` it occurs in `stripL l`. -/
theorem occursIn_stripL {n : List Char} (hn : n ≠ [])
    (hns : ∀ x ∈ n, isPySpace x = false) {l : List Char} (h : OccursIn n l) :
    OccursIn n (stripL l) := by
  have hnr : n.reverse ≠ [] := by simpa using hn
  have hnsr : ∀ x ∈ n.reverse, isPySpace x = false := by
    intro x hx
    exact hns x (List.mem_reverse.mp hx)
  have h1 : OccursIn n (l.dropWhile isPySpace) := occursIn_dropWhile hn hns l h
  have h2 : OccursIn n.reverse (l.dropWhile isPySpace).reverse :=
    occursIn_reverse.mp h1
  have h3 : OccursIn n.reverse ((l.dropWhile isPySpace).reverse.dropWhile isPySpace) :=
    occursIn_dropWhile hnr hnsr _ h2
  rw [stripL]
  apply occursIn_reverse.mpr
  simpa using h3

/-- Conversely, anything occurring in the stripped list occurs in the
original. -/
theorem occursIn_of_stripL {n l : List Char} (h : OccursIn n (stripL l)) :
    OccursIn n l := by
  rw [stripL] at h
  have h1 : OccursIn n.reverse ((l.dropWhile isPySpace).reverse.dropWhile isPySpace) := by
    have := occursIn_reverse.mp h
    simpa using this
  have h2 : OccursIn n.reverse (l.dropWhile isPySpace).reverse :=
    occursIn_of_dropWhile _ h1
  have h3 : OccursIn n (l.dropWhile isPySpace) := occursIn_reverse.mpr (by simpa using h2)
  exact occursIn_of_dropWhile _ h3

theorem regexSearch3_cons (c : Char) (t : List Char) :
    regexSearch3 (c :: t) =
      if listPrefixAt kwPositive (c :: t) then some (0, 8)
      else if listPrefixAt kwNegative (c :: t) then some (0, 8)
      else if listPrefixAt kwNeutral (c :: t) then some (0, 7)
      else (regexSearch3 t).map (fun p => (p.1 + 1, p.2)) := rfl

/-- When neither `positive` nor `negative` occurs, the regex scan reduces to
the plain search for `neutral`. -/
theorem regexSearch3_eq_findSub_neutral :
    ∀ l : List Char, findSub kwPositive l = none → findSub kwNegative l = none →
      regexSearch3 l = (findSub kwNeutral l).map (fun i => (i, 7))
  | [], _, _ => by decide
  | c :: t, hp, hn => by
    obtain ⟨hp1, hp2⟩ := findSub_cons_none hp
    obtain ⟨hn1, hn2⟩ := findSub_cons_none hn
    rw [regexSearch3_cons, if_neg (by simp [hp1]), if_neg (by simp [hn1]),
      findSub_cons]
    by_cases hneu : listPrefixAt kwNeutral (c :: t)
    · rw [if_pos hneu, if_pos hneu]
      rfl
    · rw [if_neg hneu, if_neg hneu,
        regexSearch3_eq_findSub_neutral t hp2 hn2]
      cases findSub kwNeutral t <;> rfl

/-- When none of the three keywords occurs, the regex scan fails. -/
theorem regexSearch3_eq_none {l : List Char} (hp : findSub kwPositive l = none)
    (hn : findSub kwNegative l = none) (hneu : findSub kwNeutral l = none) :
    regexSearch3 l = none := by
  rw [regexSearch3_eq_findSub_neutral l hp hn, hneu]
  rfl

theorem findSub_eq_none_of_not_occurs {n l : List Char} (h : ¬ OccursIn n l) :
    findSub n l = none := by
  cases hf : findSub n l with
  | none => rfl
  | some i => exact absurd ((findSub_isSome_iff n l).mp (by simp [hf])) h

theorem not_occurs_of_isSome_eq_false {n l : List Char}
    (h : (findSub n l).isSome = false) : ¬ OccursIn n l := by
  intro hocc
  rw [(findSub_isSome_iff n l).mpr hocc] at h
  exact absurd h (by simp)

/-- Absence of a keyword in the reply implies absence in the stripped,
lower-cased reply searched by the backend. -/
theorem findSub_stripped_none {n : List Char} {s : String}
    (h : (findSub n (lowerL s.toList)).isSome = false) :
    findSub n (lowerL (stripL s.toList)) = none := by
  rw [lowerL_stripL]
  apply findSub_eq_none_of_not_occurs
  intro hocc
  exact not_occurs_of_isSome_eq_false h (occursIn_of_stripL hocc)

/-- Presence of a whitespace-free keyword in the reply implies presence in
the stripped, lower-cased reply searched by the backend. -/
theorem findSub_stripped_isSome {n : List Char} {s : String} (hn : n ≠ [])
    (hns : ∀ x ∈ n, isPySpace x = false)
    (h : (findSub n (lowerL s.toList)).isSome = true) :
    (findSub n (lowerL (stripL s.toList))).isSome = true := by
  rw [lowerL_stripL]
  exact (findSub_isSome_iff _ _).mpr
    (occursIn_stripL hn hns ((findSub_isSome_iff _ _).mp h))

theorem extractSentiment_of_search_some {s : String} {i len : Nat}
    (h : regexSearch3 (lowerL (stripL s.toList)) = some (i, len)) :
    extractSentiment s = String.mk (capitalizeL (((stripL s.toList).drop i).take len)) := by
  simp only [extractSentiment]
  rw [h]

theorem extractSentiment_of_search_none {s : String}
    (h : regexSearch3 (lowerL (stripL s.toList)) = none) :
    extractSentiment s = String.mk ((stripL s.toList).take 50) := by
  simp only [extractSentiment]
  rw [h]

theorem stripL_eq_nil_of_all {l : List Char} (h : l.all isPySpace = true) :
    stripL l = [] := by
  have hd : l.dropWhile isPySpace = [] := by
    induction l with
    | nil => rfl
    | cons c cs ih =>
      simp only [List.all_cons, Bool.and_eq_true] at h
      rw [List.dropWhile_cons_of_pos h.1]
      exact ih h.2
  rw [stripL, hd]
  rfl

theorem pyStrip_eq_empty {s : String} (h : s.toList.all isPySpace = true) :
    pyStrip s = "" := by
  rw [pyStrip, stripL_eq_nil_of_all h]

theorem analyze_empty {env : Env} {cur text : String} (h : pyStrip text = "") :
    analyze_sentiment env cur text =
      { status := 200, sentiment := "Please provide some text to analyze",
        newModel := cur, probeCalled := false, genCalledWith := none,
        pullStarted := false } := by
  unfold analyze_sentiment
  rw [if_pos h]

theorem analyze_probe_exn {gen : GenOutcome} {pOk : Bool} {cur text : String}
    (h : pyStrip text ≠ "") :
    analyze_sentiment ⟨.exn, gen, pOk⟩ cur text =
      { status := 200,
        sentiment := "Error: Ollama is not running. Start with 'ollama serve'",
        newModel := cur, probeCalled := true, genCalledWith := none,
        pullStarted := false } := by
  unfold analyze_sentiment
  rw [if_neg h]

theorem analyze_ok_newModel {statusCode : Nat} {modelNames : List String}
    {gen : GenOutcome} {pOk : Bool} {cur text : String} (h : pyStrip text ≠ "") :
    (analyze_sentiment ⟨.ok statusCode modelNames, gen, pOk⟩ cur text).newModel =
      if statusCode = 200 then pickModel candidateModels modelNames cur else cur := by
  unfold analyze_sentiment
  rw [if_neg h]
  cases gen with
  | connError => rfl
  | reqExn msg =>
    dsimp only
    split
    · split <;> rfl
    · rfl
  | otherExn => rfl
  | ok rf => cases rf <;> rfl

theorem analyze_ok_genCalledWith {statusCode : Nat} {modelNames : List String}
    {gen : GenOutcome} {pOk : Bool} {cur text : String} (h : pyStrip text ≠ "") :
    (analyze_sentiment ⟨.ok statusCode modelNames, gen, pOk⟩ cur text).genCalledWith =
      some (if statusCode = 200 then pickModel candidateModels modelNames cur else cur) := by
  unfold analyze_sentiment
  rw [if_neg h]
  cases gen with
  | connError => rfl
  | reqExn msg =>
    dsimp only
    split
    · split <;> rfl
    · rfl
  | otherExn => rfl
  | ok rf => cases rf <;> rfl

theorem pickModel_eq_findD : ∀ (cs available : List String) (cur : String),
    pickModel cs available cur = (cs.find? (fun c => available.contains c)).getD cur
  | [], _, _ => rfl
  | c :: rest, available, cur => by
    by_cases h : available.contains c
    · simp only [pickModel, h, if_true]
      rw [List.find?_cons_of_pos _ (by simpa using h)]
      rfl
    · simp only [pickModel, h, if_false]
      rw [List.find?_cons_of_neg _ (by simpa using h)]
      exact pickModel_eq_findD rest available cur

theorem pickModel_mem : ∀ (cs available : List String) (cur : String),
    pickModel cs available cur = cur ∨ pickModel cs available cur ∈ cs
  | [], _, _ => Or.inl rfl
  | c :: rest, available, cur => by
    by_cases h : available.contains c
    · simp only [pickModel, h, if_true]
      exact Or.inr (List.mem_cons_self c rest)
    · simp only [pickModel, h, if_false]
      rcases pickModel_mem rest available cur with h1 | h1
      · exact Or.inl h1
      · exact Or.inr (List.mem_cons_of_mem _ h1)

theorem analyze_newModel_cases (env : Env) (cur text : String) :
    (analyze_sentiment env cur text).newModel = cur ∨
    (analyze_sentiment env cur text).newModel ∈ candidateModels := by
  rcases env with ⟨probe, gen, pOk⟩
  by_cases h : pyStrip text = ""
  · rw [analyze_empty h]
    exact Or.inl rfl
  · cases probe with
    | exn =>
      rw [analyze_probe_exn h]
      exact Or.inl rfl
    | ok sc names =>
      rw [analyze_ok_newModel h]
      by_cases hsc : sc = 200
      · rw [if_pos hsc]
        rcases pickModel_mem candidateModels names cur with h1 | h1
        · exact Or.inl h1
        · exact Or.inr h1
      · rw [if_neg hsc]
        exact Or.inl rfl

theorem runAux_mem : ∀ (calls : List (Env × String)) (m : String),
    m ∈ candidateModels →
    calls.foldl (fun m c => (analyze_sentiment c.1 m c.2).newModel) m ∈ candidateModels
  | [], _, hm => hm
  | c :: rest, m, hm => by
    rw [List.foldl_cons]
    apply runAux_mem rest
    rcases analyze_newModel_cases c.1 m c.2 with h | h
    · rw [h]
      exact hm
    · exact h

/-- C3: with a 200 tags reply listing `modelNames`, `analyze` scans the fixed
priority list in order and stores the first candidate present as the new
process-wide model; in particular `tinyllama` wins when present without
`phi`, and with no candidate present the previous selection is kept. -/
theorem C3_model_selection (modelNames : List String) (gen : GenOutcome)
    (pOk : Bool) (cur text : String) (h : pyStrip text ≠ "") :
    (analyze_sentiment ⟨.ok 200 modelNames, gen, pOk⟩ cur text).newModel =
      (candidateModels.find? (fun c => modelNames.contains c)).getD cur ∧
    (modelNames.contains "tinyllama" = true → modelNames.contains "phi" = false →
      (analyze_sentiment ⟨.ok 200 modelNames, gen, pOk⟩ cur text).newModel = "tinyllama") ∧
    ((∀ c ∈ candidateModels, modelNames.contains c = false) →
      (analyze_sentiment ⟨.ok 200 modelNames, gen, pOk⟩ cur text).newModel = cur) := by
  have hbase : (analyze_sentiment ⟨.ok 200 modelNames, gen, pOk⟩ cur text).newModel =
      pickModel candidateModels modelNames cur := by
    rw [analyze_ok_newModel h, if_pos rfl]
  refine ⟨?_, ?_, ?_⟩
  · rw [hbase, pickModel_eq_findD]
  · intro ht hp
    rw [hbase]
    have ht' : "tinyllama" ∈ modelNames := by simpa using ht
    have hp' : "phi" ∉ modelNames := by simpa using hp
    simp [candidateModels, pickModel, hp', ht']
  · intro hall
    rw [hbase]
    have h1 : "phi" ∉ modelNames := by simpa using hall "phi" (by decide)
    have h2 : "tinyllama" ∉ modelNames := by simpa using hall "tinyllama" (by decide)
    have h3 : "gemma:2b" ∉ modelNames := by simpa using hall "gemma:2b" (by decide)
    have h4 : "llama2" ∉ modelNames := by simpa using hall "llama2" (by decide)
    simp [candidateModels, pickModel, h1, h2, h3, h4]

/-- C3 witness: with `tinyllama` available and `phi` not, the selection
becomes `tinyllama`. -/
theorem C3_model_selection_witness :
    (analyze_sentiment ⟨.ok 200 ["tinyllama", "llama2"], .connError, false⟩
      "phi" "fine").newModel = "tinyllama" :=
  (C3_model_selection ["tinyllama", "llama2"] .connError false "phi" "fine"
    (by decide)).2.1 (by decide) (by decide)

/-- C4: if the liveness probe raises (failure or timeout), `analyze` returns
the fixed Ollama-not-running diagnostic and the generation endpoint is never
called. -/
theorem C4_probe_failure_short_circuits (gen : GenOutcome) (pOk : Bool)
    (cur text : String) (h : pyStrip text ≠ "") :
    (analyze_sentiment ⟨.exn, gen, pOk⟩ cur text).sentiment =
      "Error: Ollama is not running. Start with 'ollama serve'" ∧
    (analyze_sentiment ⟨.exn, gen, pOk⟩ cur text).genCalledWith = none := by
  rw [analyze_probe_exn h]
  exact ⟨rfl, rfl⟩

/-- C4 witness at a concrete environment and input. -/
theorem C4_probe_failure_witness :
    (analyze_sentiment ⟨.exn, .connError, false⟩ "phi" "great").sentiment =
      "Error: Ollama is not running. Start with 'ollama serve'" ∧
    (analyze_sentiment ⟨.exn, .connError, false⟩ "phi" "great").genCalledWith = none :=
  C4_probe_failure_short_circuits .connError false "phi" "great" (by decide)

/-- C5: for whitespace-only input, `analyze` returns the fixed
please-provide-text message and performs no network call, neither the probe
nor the generation call. -/
theorem C5_whitespace_input (env : Env) (cur text : String)
    (h : text.toList.all isPySpace = true) :
    (analyze_sentiment env cur text).sentiment = "Please provide some text to analyze" ∧
    (analyze_sentiment env cur text).probeCalled = false ∧
    (analyze_sentiment env cur text).genCalledWith = none := by
  rw [analyze_empty (pyStrip_eq_empty h)]
  exact ⟨rfl, rfl, rfl⟩

/-- C5 witness at a concrete whitespace-only input. -/
theorem C5_whitespace_input_witness :
    (analyze_sentiment ⟨.exn, .connError, false⟩ "phi" " \t\n ").sentiment =
      "Please provide some text to analyze" ∧
    (analyze_sentiment ⟨.exn, .connError, false⟩ "phi" " \t\n ").probeCalled = false ∧
    (analyze_sentiment ⟨.exn, .connError, false⟩ "phi" " \t\n ").genCalledWith = none :=
  C5_whitespace_input ⟨.exn, .connError, false⟩ "phi" " \t\n " (by decide)

/-- C6: every branch of `analyze` returns an HTTP 200 response carrying a
`sentiment` string; no enumerated error category produces a distinct HTTP
status or escapes as an exception (the embedding is a total function into
`AnalyzeResult`). -/
theorem C6_always_success_shaped (env : Env) (cur text : String) :
    (analyze_sentiment env cur text).status = 200 ∧
    ∃ s : String, (analyze_sentiment env cur text).sentiment = s := by
  refine ⟨?_, ⟨_, rfl⟩⟩
  rcases env with ⟨probe, gen, pOk⟩
  by_cases h : pyStrip text = ""
  · rw [analyze_empty h]
  · cases probe with
    | exn => rw [analyze_probe_exn h]
    | ok sc names =>
      unfold analyze_sentiment
      rw [if_neg h]
      cases gen with
      | connError => rfl
      | reqExn msg =>
        dsimp only
        split
        · split <;> rfl
        · rfl
      | otherExn => rfl
      | ok rf => cases rf <;> rfl

/-- C8: the process-wide selected model starts at `"phi"` and after any
sequence of `/analyze/` calls remains one of the four fixed candidates. -/
theorem C8_model_name_invariant :
    MODEL_NAME_init ∈ candidateModels ∧
    ∀ calls : List (Env × String), runModelState calls ∈ candidateModels := by
  constructor
  · decide
  · intro calls
    exact runAux_mem calls MODEL_NAME_init (by decide)

/-- C9: a probe reply with a non-200 status does not short-circuit: the
model scan is skipped, the selection is unchanged, and the generation call
is still made with the previously selected model. -/
theorem C9_non200_probe_continues (statusCode : Nat) (modelNames : List String)
    (gen : GenOutcome) (pOk : Bool) (cur text : String)
    (hsc : statusCode ≠ 200) (h : pyStrip text ≠ "") :
    (analyze_sentiment ⟨.ok statusCode modelNames, gen, pOk⟩ cur text).newModel = cur ∧
    (analyze_sentiment ⟨.ok statusCode modelNames, gen, pOk⟩ cur text).genCalledWith =
      some cur := by
  rw [analyze_ok_newModel h, analyze_ok_genCalledWith h, if_neg hsc]
  exact ⟨rfl, rfl⟩

/-- C9 witness at a concrete 500 probe reply. -/
theorem C9_non200_probe_witness :
    (analyze_sentiment ⟨.ok 500 ["tinyllama"], .connError, false⟩ "phi" "hey").newModel =
      "phi" ∧
    (analyze_sentiment ⟨.ok 500 ["tinyllama"], .connError, false⟩ "phi" "hey").genCalledWith =
      some "phi" :=
  C9_non200_probe_continues 500 ["tinyllama"] .connError false "phi" "hey"
    (by decide) (by decide)

/-- C7: the Client View styling map: exactly `Positive` is success, exactly
`Negative` is error, exactly `Neutral` is informational, any other string
containing `Error` is error, and everything else is a generic warning. -/
theorem C7_render_mapping :
    (renderSentiment "Positive").1 = WidgetStyle.success ∧
    (renderSentiment "Negative").1 = WidgetStyle.error ∧
    (renderSentiment "Neutral").1 = WidgetStyle.info ∧
    (∀ s : String, s ≠ "Positive" → s ≠ "Negative" → s ≠ "Neutral" →
      (findSub "Error".toList s.toList).isSome = true →
      (renderSentiment s).1 = WidgetStyle.error) ∧
    (∀ s : String, s ≠ "Positive" → s ≠ "Negative" → s ≠ "Neutral" →
      (findSub "Error".toList s.toList).isSome = false →
      (renderSentiment s).1 = WidgetStyle.warning) := by
  refine ⟨by decide, by decide, by decide, ?_, ?_⟩
  · intro s h1 h2 h3 h4
    unfold renderSentiment
    rw [if_neg h1, if_neg h2, if_neg h3, if_pos h4]
  · intro s h1 h2 h3 h4
    have h4' : ¬((findSub "Error".toList s.toList).isSome = true) := by
      rw [h4]
      simp
    unfold renderSentiment
    rw [if_neg h1, if_neg h2, if_neg h3, if_neg h4']

/-- C7 witness: the string "Error: x" selects error styling. -/
theorem C7_render_mapping_witness :
    (renderSentiment "Error: x").1 = WidgetStyle.error :=
  C7_render_mapping.2.2.2.1 "Error: x" (by decide) (by decide) (by decide) (by decide)

/-- C10: a 200 response body without the `sentiment` key renders the default
string "Error" with error styling. -/
theorem C10_missing_key_renders_error (body : List (String × String))
    (h : body.lookup "sentiment" = none) :
    renderResponse 200 body = (WidgetStyle.error, "Error") := by
  unfold renderResponse
  rw [if_pos rfl, h]
  decide

/-- C10 witness at a concrete body without the key. -/
theorem C10_missing_key_witness :
    renderResponse 200 [("status", "ok")] = (WidgetStyle.error, "Error") :=
  C10_missing_key_renders_error [("status", "ok")] (by decide)

/-- C1 fails as stated: the reply "Positive Neutral" contains "Neutral", yet
extraction returns "Positive", because `re.search` takes the leftmost of the
three keyword occurrences rather than privileging "Neutral". -/
theorem C1_counterexample :
    containsCI "Positive Neutral" "Neutral" = true ∧
    extractSentiment "Positive Neutral" = "Positive" ∧
    extractSentiment "Positive Neutral" ≠ "Neutral" := by decide

/-- C1 (amended): for a reply that contains "Neutral" case-insensitively and
contains neither "Positive" nor "Negative" case-insensitively, extraction
returns exactly "Neutral". -/
theorem C1_neutral_extraction (reply : String)
    (hNeu : containsCI reply "Neutral" = true)
    (hPos : containsCI reply "Positive" = false)
    (hNeg : containsCI reply "Negative" = false) :
    extractSentiment reply = "Neutral" := by
  simp only [containsCI] at hNeu hPos hNeg
  have hkNeu : lowerL "Neutral".toList = kwNeutral := by decide
  have hkPos : lowerL "Positive".toList = kwPositive := by decide
  have hkNeg : lowerL "Negative".toList = kwNegative := by decide
  rw [hkNeu] at hNeu
  rw [hkPos] at hPos
  rw [hkNeg] at hNeg
  have hNeuS : (findSub kwNeutral (lowerL (stripL reply.toList))).isSome = true :=
    findSub_stripped_isSome (by decide) (by decide) hNeu
  obtain ⟨i, hi⟩ := Option.isSome_iff_exists.mp hNeuS
  have hPosS : findSub kwPositive (lowerL (stripL reply.toList)) = none :=
    findSub_stripped_none hPos
  have hNegS : findSub kwNegative (lowerL (stripL reply.toList)) = none :=
    findSub_stripped_none hNeg
  have hsearch : regexSearch3 (lowerL (stripL reply.toList)) = some (i, 7) := by
    rw [regexSearch3_eq_findSub_neutral _ hPosS hNegS, hi]
    rfl
  rw [extractSentiment_of_search_some hsearch]
  have hpref : listPrefixAt kwNeutral ((lowerL (stripL reply.toList)).drop i) = true :=
    findSub_some _ _ _ hi
  obtain ⟨r, hr⟩ := (listPrefixAt_iff _ _).mp hpref
  have hslice : lowerL (((stripL reply.toList).drop i).take 7) = kwNeutral := by
    have h2 : ((lowerL (stripL reply.toList)).drop i).take 7 = kwNeutral := by
      rw [hr]
      exact List.take_left' (by decide)
    calc lowerL (((stripL reply.toList).drop i).take 7)
        = ((lowerL (stripL reply.toList)).drop i).take 7 := by
          simp [lowerL, List.map_take, List.map_drop]
      _ = kwNeutral := h2
  rw [capitalizeL_lowerL hslice]
  decide

/-- C1 witness: a reply containing NEUTRAL and no other keyword extracts to
"Neutral". -/
theorem C1_neutral_extraction_witness :
    extractSentiment "The answer is NEUTRAL." = "Neutral" :=
  C1_neutral_extraction "The answer is NEUTRAL." (by decide) (by decide) (by decide)

/-- C2 fails as stated: the reply " hello" has no keyword, and extraction
returns "hello" which differs from the first 50 characters of the raw reply
(the code strips the reply before truncating). -/
theorem C2_counterexample :
    containsCI " hello" "Positive" = false ∧
    containsCI " hello" "Negative" = false ∧
    containsCI " hello" "Neutral" = false ∧
    extractSentiment " hello" ≠ String.mk (" hello".toList.take 50) := by decide

/-- C2 (amended): for a reply with no keyword occurrence, extraction returns
the first 50 characters of the whitespace-stripped reply. -/
theorem C2_fallback_first50 (reply : String)
    (hPos : containsCI reply "Positive" = false)
    (hNeg : containsCI reply "Negative" = false)
    (hNeu : containsCI reply "Neutral" = false) :
    extractSentiment reply = String.mk ((pyStrip reply).toList.take 50) := by
  simp only [containsCI] at hNeu hPos hNeg
  have hkNeu : lowerL "Neutral".toList = kwNeutral := by decide
  have hkPos : lowerL "Positive".toList = kwPositive := by decide
  have hkNeg : lowerL "Negative".toList = kwNegative := by decide
  rw [hkNeu] at hNeu
  rw [hkPos] at hPos
  rw [hkNeg] at hNeg
  have hsearch : regexSearch3 (lowerL (stripL reply.toList)) = none :=
    regexSearch3_eq_none (findSub_stripped_none hPos) (findSub_stripped_none hNeg)
      (findSub_stripped_none hNeu)
  rw [extractSentiment_of_search_none hsearch]
  rfl

/-- C2 witness: a keyword-free reply falls back to the stripped prefix. -/
theorem C2_fallback_first50_witness :
    extractSentiment "  mixed feelings today  " =
      String.mk ((pyStrip "  mixed feelings today  ").toList.take 50) :=
  C2_fallback_first50 "  mixed feelings today  " (by decide) (by decide) (by decide)
